import Mathlib

/-!
Shallow embedding of the API base-URL discovery and resilient HTTP client
negotiation subsystem of the qr-verifier app (`config/database.js` and
`components/QRScannerScreen.js`), together with theorems checking the
specification's claims against it.

JavaScript strings are modelled as Lean `String`; JS `undefined` is `none`;
JS truthiness on strings is `≠ ""`.  String primitives used by the source
(`split`, `trim`, `indexOf`, `parseInt`) are re-implemented over `List Char`
so that every definition is executable by the kernel.
-/

namespace QRVerifier

/-! ### JS string primitives -/

/-- JS `String.prototype.split` with a single-character separator:
`"a,b".split(',') = ["a","b"]`, `"".split(',') = [""]`. -/
def splitChars (sep : Char) : List Char → List (List Char)
  | [] => [[]]
  | c :: rest =>
    let r := splitChars sep rest
    if c = sep then [] :: r
    else
      match r with
      | [] => [[c]]
      | g :: gs => (c :: g) :: gs

/-- JS `s.split(sep)` for a one-character separator. -/
def jsSplit (s : String) (sep : Char) : List String :=
  (splitChars sep s.data).map (fun cs => ⟨cs⟩)

/-- JS `String.prototype.trim`: strip whitespace from both ends. -/
def jsTrim (s : String) : String :=
  ⟨((s.data.dropWhile Char.isWhitespace).reverse.dropWhile Char.isWhitespace).reverse⟩

/-- JS `Array.prototype.indexOf` on an array of strings, returning the index
of the first occurrence.  (For an element not in the list JS returns `-1`;
the embedding returns `length`, which is never hit by its callers here
because they only query members.) -/
def jsIndexOf (a : String) : List String → Nat
  | [] => 0
  | x :: rest => if x = a then 0 else jsIndexOf a rest + 1

/-- JS `parseInt(s, 10)`: skip leading whitespace, optional sign, then the
longest prefix of decimal digits; `NaN` (here `none`) if that prefix is
empty. -/
def jsParseInt10 (s : String) : Option Int :=
  let cs := s.data.dropWhile Char.isWhitespace
  let signed : Bool × List Char :=
    match cs with
    | '-' :: r => (true, r)
    | '+' :: r => (false, r)
    | r => (false, r)
  let ds := signed.2.takeWhile Char.isDigit
  if ds.isEmpty then none
  else
    let n : Nat := ds.foldl (fun a c => a * 10 + (c.toNat - 48)) 0
    some (if signed.1 then -(n : Int) else (n : Int))

/-! ### Environment model

The runtime signals read by `config/database.js`: the `__DEV__` flag,
`Constants.expoConfig?.hostUri`, `Constants.isDevice`, `Platform.OS`, the
`extra` configuration blob of the app manifest, and `process.env`. -/

structure Env where
  dev : Bool
  hostUri : Option String
  isDevice : Bool
  platformOS : String
  extra : String → Option String
  procEnv : String → Option String

/-- The fixed `keyMapping` table inside `getEnvVar` (public name →
settings-object name). -/
def keyMapping (key : String) : Option String :=
  if key = "API_BASE_URL" then some "apiBaseUrl"
  else if key = "API_TIMEOUT" then some "apiTimeout"
  else if key = "NODE_ENV" then some "nodeEnv"
  else if key = "APP_ENV" then some "appEnv"
  else if key = "HEALTH_ENDPOINT" then some "healthEndpoint"
  else if key = "QR_VERIFY_ENDPOINT" then some "qrVerifyEndpoint"
  else if key = "QR_MARK_USED_ENDPOINT" then some "qrMarkUsedEndpoint"
  else if key = "AUTH_LOGIN_ENDPOINT" then some "authLoginEndpoint"
  else if key = "AUTH_SIGNUP_ENDPOINT" then some "authSignupEndpoint"
  else if key = "ANDROID_EMULATOR_API_URL" then some "androidEmulatorApiUrl"
  else if key = "IOS_SIMULATOR_API_URL" then some "iosSimulatorApiUrl"
  else if key = "DEVICE_API_URL" then some "deviceApiUrl"
  else if key = "FALLBACK_API_URLS" then some "fallbackApiUrls"
  else if key = "DEBUG_MODE" then some "debugMode"
  else if key = "ENABLE_NETWORK_DEBUGGING" then some "enableNetworkDebugging"
  else if key = "ENABLE_API_LOGGING" then some "enableApiLogging"
  else if key = "SECURE_STORE_KEY_PREFIX" then some "secureStoreKeyPrefix"
  else none

/-- Embeds `keyMapping[key] || key`. -/
def mappedKey (key : String) : String := (keyMapping key).getD key

/-- JS `a || b` on two possibly-undefined strings: keep `a` when it is
truthy (defined and non-empty), else `b`. -/
def jsOrOpt (a b : Option String) : Option String :=
  match a with
  | some v => if v = "" then b else some v
  | none => b

/-- The function `getEnvVar(key, defaultValue = '')` of `config/database.js`:
`const envValue = extraConfig[mappedKey] || process.env[key];
 return envValue || defaultValue;` -/
def getEnvVar (env : Env) (key : String) (defaultValue : String := "") : String :=
  match jsOrOpt (env.extra (mappedKey key)) (env.procEnv key) with
  | some v => if v = "" then defaultValue else v
  | none => defaultValue

/-! ### Derived configuration values -/

def HEALTH_ENDPOINT (env : Env) : String :=
  getEnvVar env "HEALTH_ENDPOINT" "/api/health"

def QR_VERIFY_ENDPOINT (env : Env) : String :=
  getEnvVar env "QR_VERIFY_ENDPOINT" "/api/bookings/qr-details"

def QR_MARK_USED_ENDPOINT (env : Env) : String :=
  getEnvVar env "QR_MARK_USED_ENDPOINT" "/api/bookings/mark-used"

def ANDROID_EMULATOR (env : Env) : String :=
  getEnvVar env "ANDROID_EMULATOR_API_URL" "http://10.0.2.2:5000"

def IOS_SIMULATOR (env : Env) : String :=
  getEnvVar env "IOS_SIMULATOR_API_URL" "http://localhost:5000"

/-- Embeds `FALLBACK_URLS = getEnvVar('FALLBACK_API_URLS', '...').split(',').map(url => url.trim())`. -/
def FALLBACK_URLS (env : Env) : List String :=
  (jsSplit (getEnvVar env "FALLBACK_API_URLS"
    "http://10.0.2.2:5000,http://localhost:5000") ',').map jsTrim

/-- Embeds `API_CONFIG.TIMEOUT = parseInt(getEnvVar('API_TIMEOUT', '10000'), 10)`;
`none` models `NaN`. -/
def API_CONFIG_TIMEOUT (env : Env) : Option Int :=
  jsParseInt10 (getEnvVar env "API_TIMEOUT" "10000")

/-- Truthiness of `Constants.expoConfig?.hostUri`. -/
def hostUriTruthy (env : Env) : Bool :=
  match env.hostUri with
  | some v => v ≠ ""
  | none => false

/-- The function `resolveApiBaseUrl()` of `config/database.js`. -/
def resolveApiBaseUrl (env : Env) : String :=
  if env.dev ∧ hostUriTruthy env then
    "http://" ++ (jsSplit (env.hostUri.getD "") ':').headD "" ++ ":5000"
  else
    let configuredBaseUrl := getEnvVar env "API_BASE_URL"
    if configuredBaseUrl ≠ "" then configuredBaseUrl
    else if env.isDevice then ""
    else if env.platformOS = "android" then ANDROID_EMULATOR env
    else if env.platformOS = "ios" then IOS_SIMULATOR env
    else IOS_SIMULATOR env

/-! ### The candidate list and its de-duplication

`findWorkingApiUrl` builds
`[resolveApiBaseUrl(), ...FALLBACK_URLS].filter((url, index, arr) => arr.indexOf(url) === index)`.
`jsDedupAux arr l i` walks `l` (a suffix of `arr`) with the running index
`i`, keeping exactly those elements whose first index in `arr` equals their
own position — the JS filter callback verbatim. -/

def jsDedupAux (arr : List String) : List String → Nat → List String
  | [], _ => []
  | x :: rest, i =>
    if jsIndexOf x arr = i then x :: jsDedupAux arr rest (i + 1)
    else jsDedupAux arr rest (i + 1)

/-- Embeds `arr.filter((url, index, arr) => arr.indexOf(url) === index)`. -/
def jsDedup (arr : List String) : List String := jsDedupAux arr arr 0

/-- The list `testUrls` as built at the top of `findWorkingApiUrl`. -/
def candidateList (env : Env) : List String :=
  jsDedup (resolveApiBaseUrl env :: FALLBACK_URLS env)

/-! ### Timeout sanitization

The `timeout` argument of `findWorkingApiUrl` is an arbitrary JS value;
numbers are modelled as rationals (`nan` separately), anything else as
`notNumber`. -/

inductive JsTimeout
  | num (x : ℚ)
  | nan
  | notNumber
deriving DecidableEq

/-- Embeds `if (typeof timeout !== 'number' || isNaN(timeout) || timeout < 50) timeout = 3000;` -/
def sanitizeTimeout : JsTimeout → ℚ
  | .num x => if x < 50 then 3000 else x
  | .nan => 3000
  | .notNumber => 3000

/-! ### The reachability prober -/

/-- Outcome of one `fetch` of a health URL: an exception (timeout / network
error), or a response whose `ok` flag is given. -/
inductive FetchResult
  | err
  | resp (ok : Bool)
deriving DecidableEq

/-- The network oracle: the outcome of `fetch(fullUrl, …)` under an
effective timeout.  Deterministic within one fixed environment, matching
the spec's "for every fixed environment (same candidate outcomes)". -/
structure Net where
  probe : String → ℚ → FetchResult

/-- A candidate is reachable when its health GET returns a response with
`response.ok` within the timeout. -/
def reachableAt (net : Net) (health : String) (t : ℚ) (url : String) : Prop :=
  net.probe (url ++ health) t = .resp true

instance (net : Net) (health : String) (t : ℚ) (url : String) :
    Decidable (reachableAt net health t url) := by
  unfold reachableAt; infer_instance

/-- The `for (const url of testUrls)` loop of `findWorkingApiUrl`: probe
each candidate in order; a response with `response.ok` returns the
candidate at once, any exception or non-ok response advances to the next
candidate.  Returns the list of candidates actually probed together with
the selected candidate (if any). -/
def probeRun (net : Net) (health : String) (t : ℚ) :
    List String → List String × Option String
  | [] => ([], none)
  | url :: rest =>
    if net.probe (url ++ health) t = .resp true then ([url], some url)
    else
      let r := probeRun net health t rest
      (url :: r.1, r.2)

/-- The function `findWorkingApiUrl(timeout = 3000)` of `config/database.js`: sanitize
the timeout, build the de-duplicated candidate list, probe it in order,
and fall back to a fresh `resolveApiBaseUrl()` call when every candidate
fails. -/
def findWorkingApiUrl (env : Env) (net : Net) (timeout : JsTimeout := .num 3000) : String :=
  let t := sanitizeTimeout timeout
  ((probeRun net (HEALTH_ENDPOINT env) t (candidateList env)).2).getD (resolveApiBaseUrl env)

/-- The candidates to which `findWorkingApiUrl` actually issued a health
probe, in order. -/
def findWorkingApiUrlProbes (env : Env) (net : Net) (timeout : JsTimeout := .num 3000) :
    List String :=
  (probeRun net (HEALTH_ENDPOINT env) (sanitizeTimeout timeout) (candidateList env)).1

/-! ### `createApiConfig` -/

/-- The axios configuration object built by `createApiConfig(baseURL)`. -/
structure ApiClientConfig where
  baseURL : String
  timeout : Option Int
  contentTypeHeader : String
deriving DecidableEq

/-- The function `createApiConfig(baseURL)` of `config/database.js`. -/
def createApiConfig (env : Env) (baseURL : String) : ApiClientConfig :=
  { baseURL := baseURL
    timeout := API_CONFIG_TIMEOUT env
    contentTypeHeader := "application/json" }

/-! ### The scanner screen's network flows

`handleBarCodeScanned` and `markAsUsed` in `QRScannerScreen.js`, modelled
as the sequence of network actions they perform.  The oracles: validity of
the held axios client, the budget-10000ms axios health GET per base URL,
the value the prober would return, and the stored auth token. -/

inductive NetEvent
  | probeRun (result : String)
  | healthCheck (base : String) (endpoint : String) (ok : Bool)
  | post (base : String) (endpoint : String) (body : String) (auth : Option String)
deriving DecidableEq

structure ScanWorld where
  /-- Embeds `apiClient && typeof apiClient.post === 'function'` -/
  clientValid : Bool
  /-- outcome of `client.get(API_CONFIG.HEALTH_ENDPOINT)` for a client
  bound to the given base URL (`false` covers thrown errors and non-ok
  responses alike) -/
  healthOk : String → Bool
  /-- the value `findWorkingBackend()` (= `findWorkingApiUrl`) returns in
  this environment -/
  findWorking : String
  /-- Embeds `SecureStore.getItemAsync('authToken')` (`none` = null) -/
  authToken : Option String

/-- Embeds `authToken ? { headers: { Authorization: 'Bearer ' + authToken } } : {}`:
the header is attached only for a truthy (non-empty) token. -/
def bearerOf : Option String → Option String
  | some t => if t = "" then none else some ("Bearer " ++ t)
  | none => none

/-- The network-relevant body of `handleBarCodeScanned` (lines 142–178):
(1) if the held client is structurally invalid, rebind it via the prober;
(2) pre-flight health GET against the current client; on failure rebind via
the prober; (3) POST the QR payload to the verify endpoint against the
current client.  Returns the emitted events in order and the base URL the
verify POST was issued against. -/
def handleBarCodeScanned (env : Env) (w : ScanWorld) (data : String)
    (initialBase : String) : List NetEvent × String :=
  let step1 : String × List NetEvent :=
    if w.clientValid then (initialBase, [])
    else (w.findWorking, [NetEvent.probeRun w.findWorking])
  let base1 := step1.1
  let step2 : String × List NetEvent :=
    if w.healthOk base1 then
      (base1, [NetEvent.healthCheck base1 (HEALTH_ENDPOINT env) true])
    else
      (w.findWorking,
        [NetEvent.healthCheck base1 (HEALTH_ENDPOINT env) false,
         NetEvent.probeRun w.findWorking])
  let base2 := step2.1
  (step1.2 ++ step2.2 ++
     [NetEvent.post base2 (QR_VERIFY_ENDPOINT env) data (bearerOf w.authToken)],
   base2)

/-- The network-relevant body of `markAsUsed` (lines 230–243): if the held
client is structurally invalid, rebind it via the prober; then POST the QR
payload to the mark-used endpoint.  There is no pre-flight health check in
this flow. -/
def markAsUsed (env : Env) (w : ScanWorld) (qrData : String)
    (initialBase : String) : List NetEvent × String :=
  let step1 : String × List NetEvent :=
    if w.clientValid then (initialBase, [])
    else (w.findWorking, [NetEvent.probeRun w.findWorking])
  let base1 := step1.1
  (step1.2 ++
     [NetEvent.post base1 (QR_MARK_USED_ENDPOINT env) qrData (bearerOf w.authToken)],
   base1)

/-! ### Lemmas about the JS de-duplicating filter -/

theorem jsIndexOf_cons_self (a : String) (l : List String) :
    jsIndexOf a (a :: l) = 0 := by
  simp [jsIndexOf]

theorem jsIndexOf_cons_ne (a x : String) (l : List String) (h : x ≠ a) :
    jsIndexOf a (x :: l) = jsIndexOf a l + 1 := by
  simp [jsIndexOf, h]

/-- Walking the tail of a list with a shifted index against the extended
array is walking it against the original array and then dropping the new
head element. -/
theorem jsDedupAux_cons_shift (a : String) (l : List String) :
    ∀ (l' : List String) (i : ℕ),
      jsDedupAux (a :: l) l' (i + 1) =
        (jsDedupAux l l' i).filter (fun x => x ≠ a)
  | [], _ => rfl
  | x :: rest, i => by
    by_cases hx : x = a
    · subst hx
      rw [jsDedupAux, jsIndexOf_cons_self]
      have hne : ¬ (0 = i + 1) := by omega
      rw [if_neg hne, jsDedupAux_cons_shift x l rest (i + 1), jsDedupAux]
      by_cases hi : jsIndexOf x l = i
      · rw [if_pos hi, List.filter_cons]
        simp
      · rw [if_neg hi]
    · rw [jsDedupAux, jsIndexOf_cons_ne x a l (fun h => hx h.symm)]
      rw [jsDedupAux]
      by_cases hi : jsIndexOf x l = i
      · rw [if_pos (by omega : jsIndexOf x l + 1 = i + 1), if_pos hi,
          List.filter_cons, jsDedupAux_cons_shift a l rest (i + 1)]
        simp [hx]
      · rw [if_neg (by omega : ¬ (jsIndexOf x l + 1 = i + 1)), if_neg hi,
          jsDedupAux_cons_shift a l rest (i + 1)]

theorem jsDedup_nil : jsDedup [] = [] := rfl

theorem jsDedup_cons (a : String) (l : List String) :
    jsDedup (a :: l) = a :: (jsDedup l).filter (fun x => x ≠ a) := by
  rw [jsDedup, jsDedupAux, jsIndexOf_cons_self, if_pos rfl,
    jsDedupAux_cons_shift a l l 0, jsDedup]

theorem jsDedup_nodup : ∀ l : List String, (jsDedup l).Nodup
  | [] => by simp [jsDedup_nil]
  | a :: l => by
    rw [jsDedup_cons]
    refine List.nodup_cons.2 ⟨fun hmem => ?_, (jsDedup_nodup l).filter _⟩
    have := List.of_mem_filter hmem
    simp at this

theorem jsDedup_sublist : ∀ l : List String, List.Sublist (jsDedup l) l
  | [] => by simp [jsDedup_nil]
  | a :: l => by
    rw [jsDedup_cons]
    exact ((List.filter_sublist _).trans (jsDedup_sublist l)).cons₂ a

theorem mem_jsDedup (x : String) : ∀ l : List String, x ∈ jsDedup l ↔ x ∈ l
  | [] => by simp [jsDedup_nil]
  | a :: l => by
    rw [jsDedup_cons]
    by_cases hx : x = a
    · subst hx; simp
    · simp [List.mem_filter, mem_jsDedup x l, hx]

/-! ### Lemmas about `getEnvVar` -/

/-- A JS-falsy optional string: undefined or empty. -/
def falsyOpt (o : Option String) : Prop := o = none ∨ o = some ""

theorem getEnvVar_extra_truthy (env : Env) (key d v : String)
    (h : env.extra (mappedKey key) = some v) (hv : v ≠ "") :
    getEnvVar env key d = v := by
  simp [getEnvVar, jsOrOpt, h, hv]

theorem getEnvVar_proc_truthy (env : Env) (key d w : String)
    (h : falsyOpt (env.extra (mappedKey key)))
    (hp : env.procEnv key = some w) (hw : w ≠ "") :
    getEnvVar env key d = w := by
  rcases h with h | h <;> simp [getEnvVar, jsOrOpt, h, hp, hw]

theorem getEnvVar_default (env : Env) (key d : String)
    (h : falsyOpt (env.extra (mappedKey key)))
    (hp : falsyOpt (env.procEnv key)) :
    getEnvVar env key d = d := by
  rcases h with h | h <;> rcases hp with hp | hp <;>
    simp [getEnvVar, jsOrOpt, h, hp]

instance (o : Option String) : Decidable (falsyOpt o) := by
  unfold falsyOpt; infer_instance

/-! ### Lemmas about the probe loop -/

theorem probeRun_first_reachable (net : Net) (health : String) (t : ℚ) :
    ∀ (l : List String) (i : ℕ) (hi : i < l.length),
      reachableAt net health t (l.get ⟨i, hi⟩) →
      (∀ j (hj : j < l.length), j < i → ¬ reachableAt net health t (l.get ⟨j, hj⟩)) →
      probeRun net health t l = (l.take (i + 1), some (l.get ⟨i, hi⟩)) := by
  intro l
  induction l with
  | nil => intro i hi; simp at hi
  | cons a rest ih =>
    intro i hi hr hfirst
    cases i with
    | zero =>
      have h : net.probe (a ++ health) t = .resp true := hr
      simp [probeRun, h]
    | succ k =>
      have h0 : ¬ (net.probe (a ++ health) t = .resp true) := by
        have := hfirst 0 (by omega) (by omega)
        simpa [reachableAt] using this
      have hk : k < rest.length := by simpa using hi
      have hrk : reachableAt net health t (rest.get ⟨k, hk⟩) := by
        simpa using hr
      have hfk : ∀ j (hj : j < rest.length), j < k →
          ¬ reachableAt net health t (rest.get ⟨j, hj⟩) := by
        intro j hj hjk
        have := hfirst (j + 1) (by simpa using Nat.succ_lt_succ hj) (by omega)
        simpa using this
      simp only [probeRun, if_neg h0, ih k hk hrk hfk]
      simp

theorem probeRun_none_reachable (net : Net) (health : String) (t : ℚ) :
    ∀ l : List String, (∀ u ∈ l, ¬ reachableAt net health t u) →
      probeRun net health t l = (l, none) := by
  intro l
  induction l with
  | nil => intro _; rfl
  | cons a rest ih =>
    intro h
    have h0 : ¬ (net.probe (a ++ health) t = .resp true) := h a (by simp)
    simp only [probeRun, if_neg h0, ih (fun u hu => h u (by simp [hu]))]

/-! ### Concrete environments used by the witnesses -/

/-- An environment with a configured base URL `http://a` and two fallback
URLs, so the candidate list is `[http://a, http://b, http://c]`. -/
def envABC : Env where
  dev := false
  hostUri := none
  isDevice := false
  platformOS := "android"
  extra := fun k =>
    if k = "apiBaseUrl" then some "http://a"
    else if k = "fallbackApiUrls" then some "http://b,http://c"
    else none
  procEnv := fun _ => none

/-- A network where only `http://c` answers its health GET with an ok
response; every other fetch raises. -/
def netABC : Net where
  probe := fun u _ => if u = "http://c/api/health" then .resp true else .err

/-- A network where every fetch raises (all candidates fail). -/
def netNone : Net where
  probe := fun _ _ => .err

/-- The spec's duplicate-collapse scenario:
`FALLBACK_API_URLS = "http://a,http://b,http://a"` with best-guess
`http://a`. -/
def envDup : Env where
  dev := false
  hostUri := none
  isDevice := false
  platformOS := "android"
  extra := fun k =>
    if k = "apiBaseUrl" then some "http://a"
    else if k = "fallbackApiUrls" then some "http://a,http://b,http://a"
    else none
  procEnv := fun _ => none

/-- Structured source defines the key as the empty string while the
process environment defines it non-empty. -/
def envC4 : Env where
  dev := false
  hostUri := none
  isDevice := false
  platformOS := "ios"
  extra := fun k => if k = "apiBaseUrl" then some "" else none
  procEnv := fun k => if k = "API_BASE_URL" then some "http://env-url" else none

/-- Structured source defines the key non-empty; the process environment
also defines it (and loses). -/
def envC4W : Env where
  dev := false
  hostUri := none
  isDevice := false
  platformOS := "ios"
  extra := fun k => if k = "apiBaseUrl" then some "http://extra-url" else none
  procEnv := fun k => if k = "API_BASE_URL" then some "http://env-url" else none

/-- Nothing configured anywhere. -/
def envEmptyCfg : Env where
  dev := false
  hostUri := none
  isDevice := false
  platformOS := "ios"
  extra := fun _ => none
  procEnv := fun _ => none

/-- A physical device with no configuration and no dev host. -/
def envDevice : Env where
  dev := false
  hostUri := none
  isDevice := true
  platformOS := "ios"
  extra := fun _ => none
  procEnv := fun _ => none

/-- Same resolver-relevant inputs as `envDevice`, but a different record
(extra unrelated settings present). -/
def envDevice2 : Env where
  dev := false
  hostUri := none
  isDevice := true
  platformOS := "ios"
  extra := fun k => if k = "debugMode" then some "false" else none
  procEnv := fun k => if k = "UNRELATED" then some "x" else none

/-- Environment with `API_TIMEOUT` configured as a non-numeric string. -/
def envTimeoutBad : Env where
  dev := false
  hostUri := none
  isDevice := false
  platformOS := "ios"
  extra := fun k => if k = "apiTimeout" then some "abc" else none
  procEnv := fun _ => none

/-- A session holding a structurally valid client bound to a base URL whose
health check fails; the prober would return `http://new`. -/
def worldStale : ScanWorld where
  clientValid := true
  healthOk := fun _ => false
  findWorking := "http://new"
  authToken := some "tok"

/-- A session holding a structurally invalid client. -/
def worldInvalid : ScanWorld where
  clientValid := false
  healthOk := fun _ => true
  findWorking := "http://new"
  authToken := some "tok"

/-- Predicate holding exactly on prober-invocation events. -/
def isProbeRunEvent : NetEvent → Bool
  | .probeRun _ => true
  | _ => false

/-- Predicate holding exactly on health-check events. -/
def isHealthCheckEvent : NetEvent → Bool
  | .healthCheck _ _ _ => true
  | _ => false

/-! ## Claim theorems -/

/-- C1: whenever the candidate at index `i` is the first reachable one
(its health GET returns an ok response, all earlier candidates fail),
`findWorkingApiUrl` probes the candidates strictly in list order, returns
exactly that candidate, and issues probes only to the candidates up to and
including it — none after it. -/
theorem findWorkingApiUrl_returns_first_reachable (env : Env) (net : Net)
    (timeout : JsTimeout) (i : ℕ) (hi : i < (candidateList env).length)
    (hr : reachableAt net (HEALTH_ENDPOINT env) (sanitizeTimeout timeout)
      ((candidateList env).get ⟨i, hi⟩))
    (hfirst : ∀ j (hj : j < (candidateList env).length), j < i →
      ¬ reachableAt net (HEALTH_ENDPOINT env) (sanitizeTimeout timeout)
        ((candidateList env).get ⟨j, hj⟩)) :
    findWorkingApiUrl env net timeout = (candidateList env).get ⟨i, hi⟩ ∧
    findWorkingApiUrlProbes env net timeout = (candidateList env).take (i + 1) := by
  have h := probeRun_first_reachable net (HEALTH_ENDPOINT env) (sanitizeTimeout timeout)
    (candidateList env) i hi hr hfirst
  constructor
  · simp only [findWorkingApiUrl, h, Option.getD_some]
  · simp only [findWorkingApiUrlProbes, h]

/-- C1 witness: three candidates, the first two fail (connection
error), the third returns HTTP 200 at the health path; the function
returns exactly the third candidate and probed all three in order. -/
theorem findWorkingApiUrl_returns_first_reachable_witness :
    findWorkingApiUrl envABC netABC (.num 3000) = "http://c" ∧
    findWorkingApiUrlProbes envABC netABC (.num 3000) =
      ["http://a", "http://b", "http://c"] := by
  have h := findWorkingApiUrl_returns_first_reachable envABC netABC
    (JsTimeout.num 3000) 2 (by decide) (by decide) (by decide)
  refine ⟨?_, ?_⟩
  · rw [h.1]; decide
  · rw [h.2]; decide

/-- C2: when no candidate responds reachable, `findWorkingApiUrl`
returns the Base URL Resolver's value (a fresh `resolveApiBaseUrl env`
invocation — in this pure embedding that call is the fallback expression
of the definition itself), it never fails, and its result is non-empty
unless `resolveApiBaseUrl` itself yields the empty string. -/
theorem findWorkingApiUrl_all_fail (env : Env) (net : Net) (timeout : JsTimeout)
    (h : ∀ u ∈ candidateList env,
      ¬ reachableAt net (HEALTH_ENDPOINT env) (sanitizeTimeout timeout) u) :
    findWorkingApiUrl env net timeout = resolveApiBaseUrl env ∧
    (resolveApiBaseUrl env ≠ "" → findWorkingApiUrl env net timeout ≠ "") := by
  have hp := probeRun_none_reachable net (HEALTH_ENDPOINT env)
    (sanitizeTimeout timeout) (candidateList env) h
  have h1 : findWorkingApiUrl env net timeout = resolveApiBaseUrl env := by
    simp only [findWorkingApiUrl, hp, Option.getD_none]
  exact ⟨h1, fun hne => h1 ▸ hne⟩

/-- C2 witness: every probe errors out; the result is the resolver's
value and is non-empty here. -/
theorem findWorkingApiUrl_all_fail_witness :
    findWorkingApiUrl envABC netNone (.num 3000) = resolveApiBaseUrl envABC ∧
    findWorkingApiUrl envABC netNone (.num 3000) ≠ "" := by
  have h := findWorkingApiUrl_all_fail envABC netNone (JsTimeout.num 3000) (by decide)
  exact ⟨h.1, h.2 (by decide)⟩

/-- C3: the candidate list built by `findWorkingApiUrl` (best-guess
prepended to the fallbacks, JS-deduplicated) has no duplicates, is a
subsequence of the original order (so relative order of first occurrences
is preserved), changes no membership, starts with — and hence always
contains — the best-guess URL, and is non-empty; in the spec's concrete
scenario (fallbacks `http://a,http://b,http://a`, best guess `http://a`)
it is exactly `[http://a, http://b]`. -/
theorem candidateList_spec (env : Env) :
    (candidateList env).Nodup ∧
    List.Sublist (candidateList env) (resolveApiBaseUrl env :: FALLBACK_URLS env) ∧
    (∀ x, x ∈ candidateList env ↔ x ∈ resolveApiBaseUrl env :: FALLBACK_URLS env) ∧
    (candidateList env).head? = some (resolveApiBaseUrl env) ∧
    candidateList env ≠ [] ∧
    resolveApiBaseUrl env ∈ candidateList env ∧
    candidateList envDup = ["http://a", "http://b"] := by
  refine ⟨jsDedup_nodup _, jsDedup_sublist _, fun x => mem_jsDedup x _, ?_, ?_, ?_, by decide⟩
  · rw [candidateList, jsDedup_cons]; rfl
  · rw [candidateList, jsDedup_cons]; simp
  · rw [candidateList, jsDedup_cons]; simp

/-- C4 counterexample: the structured configuration source defines the
translated key `apiBaseUrl` (as the empty string), yet `getEnvVar` returns
the process environment variable instead of the structured value — JS `||`
treats the defined-but-empty value as absent, so "structured source wins
for every defined value" is false as stated. -/
theorem getEnvVar_structured_empty_loses :
    envC4.extra (mappedKey "API_BASE_URL") = some "" ∧
    getEnvVar envC4 "API_BASE_URL" "dflt" = "http://env-url" ∧
    "http://env-url" ≠ "" := by
  decide

/-- C4 (amended): structured source over environment over default
holds for every *non-empty* defined value: a structured value wins when it
is defined and non-empty; an undefined or empty structured value falls
through to the environment variable, which wins when defined and
non-empty; otherwise the default is returned. -/
theorem getEnvVar_precedence (env : Env) (key d : String) :
    (∀ v, env.extra (mappedKey key) = some v → v ≠ "" → getEnvVar env key d = v) ∧
    (falsyOpt (env.extra (mappedKey key)) →
      ∀ w, env.procEnv key = some w → w ≠ "" → getEnvVar env key d = w) ∧
    (falsyOpt (env.extra (mappedKey key)) → falsyOpt (env.procEnv key) →
      getEnvVar env key d = d) :=
  ⟨fun v hv hne => getEnvVar_extra_truthy env key d v hv hne,
   fun hf w hw hne => getEnvVar_proc_truthy env key d w hf hw hne,
   fun hf hp => getEnvVar_default env key d hf hp⟩

/-- C4 witness: all three precedence layers exercised at concrete
environments. -/
theorem getEnvVar_precedence_witness :
    getEnvVar envC4W "API_BASE_URL" "dflt" = "http://extra-url" ∧
    getEnvVar envC4 "API_BASE_URL" "dflt" = "http://env-url" ∧
    getEnvVar envEmptyCfg "API_BASE_URL" "dflt" = "dflt" := by
  refine ⟨(getEnvVar_precedence envC4W "API_BASE_URL" "dflt").1
      "http://extra-url" (by decide) (by decide),
    (getEnvVar_precedence envC4 "API_BASE_URL" "dflt").2.1
      (by decide) "http://env-url" (by decide) (by decide),
    (getEnvVar_precedence envEmptyCfg "API_BASE_URL" "dflt").2.2
      (by decide) (by decide)⟩

/-- C5: when the held client is structurally valid ("currently bound")
and its pre-flight health check fails, the scan flow performs exactly one
rebind (one prober run) after the health check settles and before the
verify POST, and the POST is issued against the newly rebound URL (the
prober's result), not the stale one.  The full event trace is pinned:
health check (failed), then the single prober run, then the POST. -/
theorem handleBarCodeScanned_health_fail_rebind (env : Env) (w : ScanWorld)
    (data initialBase : String)
    (hvalid : w.clientValid = true)
    (hfail : w.healthOk initialBase = false) :
    handleBarCodeScanned env w data initialBase =
      ([NetEvent.healthCheck initialBase (HEALTH_ENDPOINT env) false,
        NetEvent.probeRun w.findWorking,
        NetEvent.post w.findWorking (QR_VERIFY_ENDPOINT env) data (bearerOf w.authToken)],
       w.findWorking) ∧
    (handleBarCodeScanned env w data initialBase).1.countP isProbeRunEvent = 1 := by
  have h1 : handleBarCodeScanned env w data initialBase =
      ([NetEvent.healthCheck initialBase (HEALTH_ENDPOINT env) false,
        NetEvent.probeRun w.findWorking,
        NetEvent.post w.findWorking (QR_VERIFY_ENDPOINT env) data (bearerOf w.authToken)],
       w.findWorking) := by
    simp [handleBarCodeScanned, hvalid, hfail]
  refine ⟨h1, ?_⟩
  rw [h1]
  simp [List.countP_cons, isProbeRunEvent]

/-- C5 witness: a valid client bound to `http://old` whose health check
fails; the verify POST goes to the prober's `http://new`. -/
theorem handleBarCodeScanned_health_fail_rebind_witness :
    handleBarCodeScanned envEmptyCfg worldStale "QR" "http://old" =
      ([NetEvent.healthCheck "http://old" "/api/health" false,
        NetEvent.probeRun "http://new",
        NetEvent.post "http://new" "/api/bookings/qr-details" "QR" (some "Bearer tok")],
       "http://new") := by
  have h := (handleBarCodeScanned_health_fail_rebind envEmptyCfg worldStale
    "QR" "http://old" rfl rfl).1
  rw [h]; decide

/-- C6 counterexample: the function `markAsUsed` is not the same shape as the
verify flow — it performs no pre-flight health-check gate.  With a valid
client bound to `http://old` whose health check would fail, the mark-used
POST is issued directly against the stale `http://old` and the trace
contains no health-check event at all. -/
theorem markAsUsed_no_health_gate :
    markAsUsed envEmptyCfg worldStale "QR" "http://old" =
      ([NetEvent.post "http://old" "/api/bookings/mark-used" "QR" (some "Bearer tok")],
       "http://old") ∧
    worldStale.healthOk "http://old" = false ∧
    (markAsUsed envEmptyCfg worldStale "QR" "http://old").1.countP isHealthCheckEvent = 0 := by
  decide

/-- C6 (amended): `markAsUsed` ensures the client is structurally
valid (rebinding via one prober run when it is not) before issuing its
POST to the mark-used endpoint with the payload and, for a non-empty auth
token, a bearer Authorization header — but unlike the verify flow it
performs no pre-flight health-check gate against the current base URL. -/
theorem markAsUsed_shape (env : Env) (w : ScanWorld) (qrData initialBase : String) :
    (w.clientValid = true →
      markAsUsed env w qrData initialBase =
        ([NetEvent.post initialBase (QR_MARK_USED_ENDPOINT env) qrData (bearerOf w.authToken)],
         initialBase)) ∧
    (w.clientValid = false →
      markAsUsed env w qrData initialBase =
        ([NetEvent.probeRun w.findWorking,
          NetEvent.post w.findWorking (QR_MARK_USED_ENDPOINT env) qrData (bearerOf w.authToken)],
         w.findWorking)) ∧
    (∀ t, w.authToken = some t → t ≠ "" →
      bearerOf w.authToken = some ("Bearer " ++ t)) ∧
    (markAsUsed env w qrData initialBase).1.countP isHealthCheckEvent = 0 := by
  refine ⟨fun hv => by simp [markAsUsed, hv],
    fun hv => by simp [markAsUsed, hv],
    fun t ht hne => by simp [bearerOf, ht, hne],
    ?_⟩
  by_cases hv : w.clientValid <;>
    simp [markAsUsed, hv, List.countP_cons, isHealthCheckEvent]

/-- C6 witness: both client states exercised; the POST target, the
mark-used endpoint and the bearer header are as stated. -/
theorem markAsUsed_shape_witness :
    markAsUsed envEmptyCfg worldStale "QR" "http://old" =
      ([NetEvent.post "http://old" "/api/bookings/mark-used" "QR" (some "Bearer tok")],
       "http://old") ∧
    markAsUsed envEmptyCfg worldInvalid "QR" "http://old" =
      ([NetEvent.probeRun "http://new",
        NetEvent.post "http://new" "/api/bookings/mark-used" "QR" (some "Bearer tok")],
       "http://new") ∧
    bearerOf worldStale.authToken = some "Bearer tok" := by
  refine ⟨?_, ?_, ?_⟩
  · have h := (markAsUsed_shape envEmptyCfg worldStale "QR" "http://old").1 rfl
    rw [h]; decide
  · have h := (markAsUsed_shape envEmptyCfg worldInvalid "QR" "http://old").2.1 rfl
    rw [h]; decide
  · have h := (markAsUsed_shape envEmptyCfg worldStale "QR" "http://old").2.2.1
      "tok" rfl (by decide)
    rw [h]; decide

/-- C7: on a physical device with no truthy dev-host address and no
non-empty configured base URL, `resolveApiBaseUrl` returns exactly the
empty string; and (totality — no branch raises) every environment yields
some string. -/
theorem resolveApiBaseUrl_device_unresolved (env : Env)
    (hdev : ¬ (env.dev = true ∧ hostUriTruthy env = true))
    (hcfg : getEnvVar env "API_BASE_URL" = "")
    (hdevice : env.isDevice = true) :
    resolveApiBaseUrl env = "" ∧ ∀ e : Env, ∃ s : String, resolveApiBaseUrl e = s := by
  refine ⟨?_, fun e => ⟨resolveApiBaseUrl e, rfl⟩⟩
  rw [resolveApiBaseUrl, if_neg (by simpa using hdev)]
  simp [hcfg, hdevice]

/-- C7 witness: a concrete device environment with nothing configured
resolves to the empty string. -/
theorem resolveApiBaseUrl_device_unresolved_witness :
    resolveApiBaseUrl envDevice = "" :=
  (resolveApiBaseUrl_device_unresolved envDevice (by decide) (by decide) rfl).1

/-- C8: `findWorkingApiUrl` with `timeoutMs = 0` behaves identically
to `timeoutMs = 3000` — same result and same probe trace — because the
sanitizer replaces any non-number, NaN, or sub-50 argument with 3000
before probing. -/
theorem findWorkingApiUrl_timeout_sanitized (env : Env) (net : Net) :
    findWorkingApiUrl env net (.num 0) = findWorkingApiUrl env net (.num 3000) ∧
    findWorkingApiUrlProbes env net (.num 0) = findWorkingApiUrlProbes env net (.num 3000) ∧
    (∀ x : ℚ, x < 50 → sanitizeTimeout (.num x) = 3000) ∧
    sanitizeTimeout .nan = 3000 ∧
    sanitizeTimeout .notNumber = 3000 := by
  have h0 : sanitizeTimeout (.num 0) = sanitizeTimeout (.num 3000) := by
    norm_num [sanitizeTimeout]
  refine ⟨?_, ?_, fun x hx => by simp [sanitizeTimeout, hx], rfl, rfl⟩
  · simp only [findWorkingApiUrl, h0]
  · simp only [findWorkingApiUrlProbes, h0]

/-- C8 witness: the identical-behavior equation at a concrete
environment and the sanitizer at the concrete argument 0. -/
theorem findWorkingApiUrl_timeout_sanitized_witness :
    findWorkingApiUrl envABC netABC (.num 0) = findWorkingApiUrl envABC netABC (.num 3000) ∧
    sanitizeTimeout (.num 0) = 3000 := by
  refine ⟨(findWorkingApiUrl_timeout_sanitized envABC netABC).1,
    (findWorkingApiUrl_timeout_sanitized envABC netABC).2.2.1 0 (by norm_num)⟩

/-- C9: `resolveApiBaseUrl` is a pure function of its environment
inputs: two calls that agree on the dev flag, the dev-host address, the
configured base URL, the device flag, the platform kind, and the
configured platform URLs it reads, return the same string. -/
theorem resolveApiBaseUrl_deterministic (e1 e2 : Env)
    (hdev : e1.dev = e2.dev)
    (hhost : e1.hostUri = e2.hostUri)
    (hbase : getEnvVar e1 "API_BASE_URL" = getEnvVar e2 "API_BASE_URL")
    (hdevice : e1.isDevice = e2.isDevice)
    (hos : e1.platformOS = e2.platformOS)
    (hand : ANDROID_EMULATOR e1 = ANDROID_EMULATOR e2)
    (hios : IOS_SIMULATOR e1 = IOS_SIMULATOR e2) :
    resolveApiBaseUrl e1 = resolveApiBaseUrl e2 := by
  simp only [resolveApiBaseUrl, hostUriTruthy, hdev, hhost, hbase, hdevice, hos, hand, hios]

/-- C9 witness: two extensionally different environment records that
agree on every input the resolver reads produce the same URL. -/
theorem resolveApiBaseUrl_deterministic_witness :
    resolveApiBaseUrl envDevice = resolveApiBaseUrl envDevice2 :=
  resolveApiBaseUrl_deterministic envDevice envDevice2
    (by decide) (by decide) (by decide) (by decide) (by decide) (by decide) (by decide)

/-- C10: when the configured `API_TIMEOUT` does not parse as an
integer, `API_CONFIG.TIMEOUT` is NaN (`none`) — not the documented default
10000 — and every client configuration from `createApiConfig` carries that
NaN timeout; only complete absence of the setting yields 10000. -/
theorem API_CONFIG_TIMEOUT_nan (env : Env) (baseURL : String) :
    (jsParseInt10 (getEnvVar env "API_TIMEOUT" "10000") = none →
      API_CONFIG_TIMEOUT env = none ∧ (createApiConfig env baseURL).timeout = none) ∧
    (falsyOpt (env.extra "apiTimeout") → falsyOpt (env.procEnv "API_TIMEOUT") →
      API_CONFIG_TIMEOUT env = some 10000 ∧
        (createApiConfig env baseURL).timeout = some 10000) := by
  constructor
  · intro h
    exact ⟨h, h⟩
  · intro hx hp
    have hmk : mappedKey "API_TIMEOUT" = "apiTimeout" := by decide
    have hd : getEnvVar env "API_TIMEOUT" "10000" = "10000" :=
      getEnvVar_default env "API_TIMEOUT" "10000" (by rw [hmk]; exact hx) hp
    have ht : API_CONFIG_TIMEOUT env = some 10000 := by
      rw [API_CONFIG_TIMEOUT, hd]; decide
    exact ⟨ht, ht⟩

/-- C10 witness: `API_TIMEOUT = "abc"` gives a NaN client timeout; a
fully absent setting gives 10000. -/
theorem API_CONFIG_TIMEOUT_nan_witness :
    (createApiConfig envTimeoutBad "http://a").timeout = none ∧
    (createApiConfig envEmptyCfg "http://a").timeout = some 10000 :=
  ⟨((API_CONFIG_TIMEOUT_nan envTimeoutBad "http://a").1 (by decide)).2,
   ((API_CONFIG_TIMEOUT_nan envEmptyCfg "http://a").2 (by decide) (by decide)).2⟩

end QRVerifier
